import Mathlib

/-
Verification of control_laser_tower (src/control_laser_tower/controller.py).

The module has three pieces:
  * a process-wide configuration store `_GLOBAL_CONFIG` mutated by `set_config`;
  * `LaserTower`, which snapshots the store at construction, owns two servo
    handles and one LED handle, validates angles and maps them linearly to
    normalized actuation values in [-1, 1], and best-effort releases all
    handles in `close`;
  * `BackendController.notify_backend`, which builds a three-field payload,
    issues one HTTP POST, translates failures into a RuntimeError chaining the
    original exception, and on success returns parsed JSON or raw text.

The embedding is state-passing: Python's module-global `_GLOBAL_CONFIG` becomes
an explicit `Config` argument/result, servo/LED handles become fields of a
`TowerState`, exceptions become `Except`/`Option PyErr` values, and the single
HTTP POST consumes the head of an explicit script of transport outcomes.
Angles and servo values are rationals (the Python code does exact decimal
arithmetic on the inputs the spec discusses; no rounding is at issue).
-/

namespace ControlLaserTower

/-- Python exception classes that the controller module can raise on the paths
under verification. -/
inductive PyErr
  | valueError
  | typeError
  deriving DecidableEq, Repr

/-- Python values that can be passed where the code applies `int(...)`:
an actual integer, a string (which `int` parses, raising ValueError when it is
not a decimal numeral), or some other non-numeric object (for which `int`
raises TypeError). -/
inductive PyVal
  | int (n : Int)
  | str (s : String)
  | other
  deriving DecidableEq, Repr

/-- Python's `int(x)` coercion on the values of `PyVal`: identity on integers,
decimal parse on strings (ValueError on a non-numeric string), TypeError on a
non-numeric object. -/
def pyInt : PyVal → Except PyErr Int
  | .int n => .ok n
  | .str s =>
      match s.toInt? with
      | some n => .ok n
      | none => .error .valueError
  | .other => .error .typeError

/-- The configuration record: `DEFAULT_CONFIG` / `_GLOBAL_CONFIG` hold exactly
these three pin entries. -/
structure Config where
  base_pin : Int
  top_pin : Int
  laser_pin : Int
  deriving DecidableEq, Repr

/-- Built-in defaults: base=23, top=24, laser=17. -/
def DEFAULT_CONFIG : Config := { base_pin := 23, top_pin := 24, laser_pin := 17 }

/-- One `if arg is not None: _GLOBAL_CONFIG[key] = int(arg)` step of
`set_config`: absent argument leaves the store untouched; a present argument
is coerced and written, and a coercion failure aborts with that exception
(leaving this key unwritten). -/
def setOne (v : Option PyVal) (write : Int → Config → Config) (g : Config) :
    Config × Option PyErr :=
  match v with
  | none => (g, none)
  | some x =>
      match pyInt x with
      | .ok n => (write n g, none)
      | .error e => (g, some e)

/-- Embedding of `set_config(base_pin, top_pin, laser_pin)`. The store is
threaded explicitly; the `Option PyErr` result records a raised exception.
The three keys are processed in source order, so writes made before a failing
coercion persist, exactly as the Python global mutation does. -/
def set_config (base_pin top_pin laser_pin : Option PyVal) (g : Config) :
    Config × Option PyErr :=
  match setOne base_pin (fun n c => { c with base_pin := n }) g with
  | (g1, some e) => (g1, some e)
  | (g1, none) =>
      match setOne top_pin (fun n c => { c with top_pin := n }) g1 with
      | (g2, some e) => (g2, some e)
      | (g2, none) => setOne laser_pin (fun n c => { c with laser_pin := n }) g2

/-- Servo pulse timing parameters (`servo_pulse_settings`). -/
structure PulseSettings where
  min_pulse_width : ℚ
  max_pulse_width : ℚ
  frame_width : ℚ
  deriving DecidableEq, Repr

/-- Default pulse settings from `LaserTower.__init__`:
0.0005 / 0.0025 / 0.02 seconds. -/
def defaultPulseSettings : PulseSettings :=
  { min_pulse_width := 5 / 10000, max_pulse_width := 25 / 10000, frame_width := 2 / 100 }

/-- Observable state of the three hardware handles: the last value written to
each servo (`none` before any write) and whether the laser LED is driven high. -/
structure TowerState where
  baseValue : Option ℚ
  topValue : Option ℚ
  laserOn : Bool
  deriving DecidableEq, Repr

/-- A constructed `LaserTower` instance: the pins resolved at construction
time, the pulse settings, and the handle state. -/
structure LaserTower where
  base_pin : Int
  top_pin : Int
  laser_pin : Int
  pulse : PulseSettings
  st : TowerState
  deriving DecidableEq, Repr

/-- Embedding of `LaserTower.__init__`. It copies the global store
(`cfg = dict(_GLOBAL_CONFIG)`), applies the per-instance overrides to that
private copy only, fills in default pulse settings, and acquires the handles.
The returned `Config` is the global store after construction: the constructor
never writes it back, so it is returned unchanged. -/
def LaserTower.init (base_pin top_pin laser_pin : Option Int)
    (servo_pulse_settings : Option PulseSettings) (g : Config) :
    LaserTower × Config :=
  let cfg := g
  let cfg := match base_pin with
    | some n => { cfg with base_pin := n }
    | none => cfg
  let cfg := match top_pin with
    | some n => { cfg with top_pin := n }
    | none => cfg
  let cfg := match laser_pin with
    | some n => { cfg with laser_pin := n }
    | none => cfg
  let pulse := servo_pulse_settings.getD defaultPulseSettings
  ({ base_pin := cfg.base_pin, top_pin := cfg.top_pin, laser_pin := cfg.laser_pin,
     pulse := pulse, st := { baseValue := none, topValue := none, laserOn := false } }, g)

/-- Embedding of `LaserTower.set_base_angle(angle)`: reject angles outside
[0, 360] with ValueError before touching the handle, otherwise write
`angle / 180 - 1` to the base servo. -/
def LaserTower.set_base_angle (t : LaserTower) (angle : ℚ) : Except PyErr LaserTower :=
  if angle < 0 ∨ angle > 360 then
    .error .valueError
  else
    .ok { t with st := { t.st with baseValue := some (angle / 180 - 1) } }

/-- Embedding of `LaserTower.set_top_angle(angle)`: reject angles outside
[0, 180] with ValueError before touching the handle, otherwise write
`angle / 90 - 1` to the top servo. -/
def LaserTower.set_top_angle (t : LaserTower) (angle : ℚ) : Except PyErr LaserTower :=
  if angle < 0 ∨ angle > 180 then
    .error .valueError
  else
    .ok { t with st := { t.st with topValue := some (angle / 90 - 1) } }

/-- Embedding of `LaserTower.laser_on()`: drive the LED high. -/
def LaserTower.laser_on (t : LaserTower) : LaserTower :=
  { t with st := { t.st with laserOn := true } }

/-- Embedding of `LaserTower.laser_off()`: drive the LED low. -/
def LaserTower.laser_off (t : LaserTower) : LaserTower :=
  { t with st := { t.st with laserOn := false } }

/-- Whether a handle's `close()` call raises an (ordinary) exception. -/
inductive ReleaseOutcome
  | succeeds
  | raises
  deriving DecidableEq, Repr

/-- The `dev.close()` call itself: raises or returns. -/
def releaseDevice : ReleaseOutcome → Except Unit Unit
  | .succeeds => .ok ()
  | .raises => .error ()

/-- One iteration of the `close` loop: `try: dev.close() except Exception: pass`.
The release is attempted and any exception is swallowed; the returned flag
records that the attempt was made. -/
def closeStep (o : ReleaseOutcome) : Except Unit Bool :=
  match releaseDevice o with
  | .ok _ => .ok true
  | .error _ => .ok true

/-- Embedding of `LaserTower.close()`: iterate over (base, top, laser) in
order, attempting each release under a swallowing handler. The result lists,
per handle, whether its release was attempted; an `Except` error would model
an exception escaping to the caller. -/
def LaserTower.close (oBase oTop oLaser : ReleaseOutcome) :
    Except Unit (Bool × Bool × Bool) := do
  let aBase ← closeStep oBase
  let aTop ← closeStep oTop
  let aLaser ← closeStep oLaser
  return (aBase, aTop, aLaser)

/-- Rendering of a timestamp by `datetime.isoformat()`. Instants are modelled
as integer seconds; all that the proofs use is that distinct instants render
distinctly, which holds of the real ISO-8601 rendering as well. -/
def pyIsoformat (t : Int) : String := toString t

/-- The notification payload built by `notify_backend`: exactly the three
fields `camera_id`, `time` and `message`. -/
structure Payload where
  camera_id : String
  time : String
  message : String
  deriving DecidableEq, Repr

/-- An HTTP response as `requests` delivers it: a status code, the raw body
text, and the result of attempting to parse the body as JSON (`resp.json()`
raises ValueError exactly when this is `none`). Parsed JSON data is an
abstract type parameter. -/
structure Response (α : Type) where
  status_code : Nat
  parsedJson : Option α
  text : String
  deriving DecidableEq, Repr

/-- Outcome of one `requests.post` call: either a transport-level failure
(a `requests.RequestException` such as a timeout or connection error), or a
delivered response. -/
inductive PostOutcome (α : Type)
  | transportError (msg : String)
  | response (r : Response α)
  deriving DecidableEq, Repr

/-- The original exception chained as `__cause__` on the translated
RuntimeError: either the HTTPError produced by `raise_for_status` for a given
status code, or the transport-level RequestException. -/
inductive NotifyCause
  | httpStatus (code : Nat)
  | transport (msg : String)
  deriving DecidableEq, Repr

/-- The translated failure of `notify_backend`: a RuntimeError whose message
starts with "failed to notify backend" and whose cause is the original
exception. -/
structure NotifyError where
  message : String
  cause : NotifyCause
  deriving DecidableEq, Repr

/-- Successful result of `notify_backend`: the parsed JSON data when the body
parses, otherwise the raw response text. -/
inductive NotifyResult (α : Type)
  | jsonResult (data : α)
  | textResult (text : String)
  deriving DecidableEq, Repr

/-- Embedding of `requests.Response.raise_for_status()`: raises an HTTPError
exactly for client-error (4xx) and server-error (5xx) status codes. -/
def raise_for_status (r : Response α) : Except NotifyCause Unit :=
  if 400 ≤ r.status_code ∧ r.status_code < 600 then
    .error (.httpStatus r.status_code)
  else
    .ok ()

/-- One `requests.post` call against a script of transport outcomes: it
consumes exactly the head of the script. `none` means the script is exhausted
(the ambient network always yields some outcome, so callers supply a nonempty
script). -/
def http_post (script : List (PostOutcome α)) :
    Option (PostOutcome α × List (PostOutcome α)) :=
  match script with
  | [] => none
  | o :: rest => some (o, rest)

/-- The message of the translated RuntimeError,
`f"failed to notify backend: {exc}"`: the fixed text followed by the rendering
of the original exception. -/
def notifyErrMsg (suffix : String) : String := "failed to notify backend" ++ suffix

/-- Embedding of `BackendController.notify_backend(camera_id, message)`.

The ambient clock is passed explicitly: `utcNow` is the current UTC instant
and `tzOffset` the process's local-timezone offset, so `datetime.now()` (local
wall-clock time, as the source calls it) reads `utcNow + tzOffset`. The
payload is built fresh with the three fields, then one POST is issued; a
transport failure or a `raise_for_status` failure is re-raised as a
RuntimeError chaining the original cause, while a delivered, non-raising
response yields its parsed JSON, falling back to the raw text when `json()`
raises ValueError. The returned list is the unconsumed remainder of the
transport script. -/
def notify_backend (script : List (PostOutcome α)) (utcNow tzOffset : Int)
    (camera_id message : String) :
    Option (Except NotifyError (NotifyResult α) × Payload × List (PostOutcome α)) :=
  let payload : Payload :=
    { camera_id := camera_id,
      time := pyIsoformat (utcNow + tzOffset) ++ "Z",
      message := message }
  match http_post script with
  | none => none
  | some (.transportError m, rest) =>
      some (.error { message := notifyErrMsg (": " ++ m),
                     cause := .transport m }, payload, rest)
  | some (.response r, rest) =>
      match raise_for_status r with
      | .error c =>
          some (.error { message := notifyErrMsg ": http error", cause := c },
                payload, rest)
      | .ok _ =>
          match r.parsedJson with
          | some d => some (.ok (.jsonResult d), payload, rest)
          | none => some (.ok (.textResult r.text), payload, rest)

/-- Whether an optional `set_config` argument, if present, coerces under
`int(...)` without raising. -/
def argCoerces : Option PyVal → Bool
  | none => true
  | some v =>
      match pyInt v with
      | .ok _ => true
      | .error _ => false

/-- The channel a `set_config` argument leaves in the store: the coerced value
when present and coercible, otherwise the previous value. -/
def resolvedChannel (a : Option PyVal) (d : Int) : Int :=
  match a with
  | none => d
  | some v =>
      match pyInt v with
      | .ok n => n
      | .error _ => d

/-- The original exception that a failing POST outcome makes `notify_backend`
chain as the cause of its translated RuntimeError: the RequestException for a
transport failure, the HTTPError from `raise_for_status` for a 4xx/5xx status;
`none` when the outcome does not make `notify_backend` fail. -/
def originalCause : PostOutcome α → Option NotifyCause
  | .transportError m => some (.transport m)
  | .response r =>
      if 400 ≤ r.status_code ∧ r.status_code < 600 then
        some (.httpStatus r.status_code)
      else
        none

/-- A concrete tower instance used by witnesses: constructed from the built-in
defaults with no overrides. -/
def tower0 : LaserTower := (LaserTower.init none none none none DEFAULT_CONFIG).1

/-- Claim C1: for every angle a in [0, 360], `set_base_angle(a)` succeeds and
writes a/180 - 1 to the base handle (only the base handle changes); for a
outside [0, 360] it raises ValueError, and since the exception is raised
before any write, the tower (in particular the base handle's last written
value) is unchanged — the error result carries no modified state. -/
theorem set_base_angle_spec (t : LaserTower) (a : ℚ) :
    (0 ≤ a ∧ a ≤ 360 →
      t.set_base_angle a =
        .ok { t with st := { t.st with baseValue := some (a / 180 - 1) } }) ∧
    (¬ (0 ≤ a ∧ a ≤ 360) → t.set_base_angle a = .error .valueError) := by
  constructor
  · rintro ⟨h0, h1⟩
    have hc : ¬ (a < 0 ∨ a > 360) := by
      push_neg
      exact ⟨h0, h1⟩
    simp only [LaserTower.set_base_angle, if_neg hc]
  · intro h
    have hc : a < 0 ∨ a > 360 := by
      rw [not_and_or, not_le, not_le] at h
      exact h
    simp only [LaserTower.set_base_angle, if_pos hc]

/-- Claim C1 witness: at the boundary 360 the write is 1, and the slightly
out-of-range -0.001 raises ValueError. -/
theorem set_base_angle_spec_witness :
    (tower0.set_base_angle 360 =
      .ok { tower0 with st := { tower0.st with baseValue := some (360 / 180 - 1) } }) ∧
    tower0.set_base_angle (-1) = .error .valueError :=
  ⟨(set_base_angle_spec tower0 360).1 (by decide),
   (set_base_angle_spec tower0 (-1)).2 (by decide)⟩

/-- Claim C2: for every angle a in [0, 180], `set_top_angle(a)` succeeds and
writes a/90 - 1 to the top handle; for a outside [0, 180] it raises
ValueError before any write, leaving the tower unchanged. -/
theorem set_top_angle_spec (t : LaserTower) (a : ℚ) :
    (0 ≤ a ∧ a ≤ 180 →
      t.set_top_angle a =
        .ok { t with st := { t.st with topValue := some (a / 90 - 1) } }) ∧
    (¬ (0 ≤ a ∧ a ≤ 180) → t.set_top_angle a = .error .valueError) := by
  constructor
  · rintro ⟨h0, h1⟩
    have hc : ¬ (a < 0 ∨ a > 180) := by
      push_neg
      exact ⟨h0, h1⟩
    simp only [LaserTower.set_top_angle, if_neg hc]
  · intro h
    have hc : a < 0 ∨ a > 180 := by
      rw [not_and_or, not_le, not_le] at h
      exact h
    simp only [LaserTower.set_top_angle, if_pos hc]

/-- Claim C2 witness: at the boundary 0 the write is -1, and the out-of-range
181 raises ValueError. -/
theorem set_top_angle_spec_witness :
    (tower0.set_top_angle 0 =
      .ok { tower0 with st := { tower0.st with topValue := some (0 / 90 - 1) } }) ∧
    tower0.set_top_angle 181 = .error .valueError :=
  ⟨(set_top_angle_spec tower0 0).1 (by decide),
   (set_top_angle_spec tower0 181).2 (by decide)⟩

/-- Claim C3: for every combination of per-handle release outcomes, `close`
returns normally (never raises) and the release of all three handles (base,
top, laser) is attempted. -/
theorem close_spec (oBase oTop oLaser : ReleaseOutcome) :
    LaserTower.close oBase oTop oLaser = .ok (true, true, true) := by
  cases oBase <;> cases oTop <;> cases oLaser <;> rfl

/-- Claim C9: in the active state, `laser_on` followed by `laser_off` leaves
the light-output handle off, and both operations are idempotent: repeating
either one leaves exactly the state a single call leaves. -/
theorem light_ops_spec (t : LaserTower) :
    (t.laser_on.laser_off.st.laserOn = false) ∧
    t.laser_on.laser_on = t.laser_on ∧
    t.laser_off.laser_off = t.laser_off :=
  ⟨rfl, rfl, rfl⟩

/-- Coercible present arguments yield an `Except.ok` coercion. -/
lemma exists_ok_of_argCoerces {v : PyVal} (h : argCoerces (some v) = true) :
    ∃ n, pyInt v = .ok n := by
  rcases hv : pyInt v with e | n
  · rw [argCoerces, hv] at h
    cases h
  · exact ⟨n, rfl⟩

/-- A coercible base argument writes `resolvedChannel` of the base entry. -/
lemma setOne_base (b : Option PyVal) (h : argCoerces b = true) (g : Config) :
    setOne b (fun n c => { c with base_pin := n }) g =
      ({ g with base_pin := resolvedChannel b g.base_pin }, none) := by
  rcases b with _ | v
  · rfl
  · obtain ⟨n, hn⟩ := exists_ok_of_argCoerces h
    simp [setOne, resolvedChannel, hn]

/-- A coercible top argument writes `resolvedChannel` of the top entry. -/
lemma setOne_top (t : Option PyVal) (h : argCoerces t = true) (g : Config) :
    setOne t (fun n c => { c with top_pin := n }) g =
      ({ g with top_pin := resolvedChannel t g.top_pin }, none) := by
  rcases t with _ | v
  · rfl
  · obtain ⟨n, hn⟩ := exists_ok_of_argCoerces h
    simp [setOne, resolvedChannel, hn]

/-- A coercible laser argument writes `resolvedChannel` of the laser entry. -/
lemma setOne_laser (l : Option PyVal) (h : argCoerces l = true) (g : Config) :
    setOne l (fun n c => { c with laser_pin := n }) g =
      ({ g with laser_pin := resolvedChannel l g.laser_pin }, none) := by
  rcases l with _ | v
  · rfl
  · obtain ⟨n, hn⟩ := exists_ok_of_argCoerces h
    simp [setOne, resolvedChannel, hn]

/-- Claim C6: a `set_config` call whose present arguments all coerce succeeds,
replacing exactly the channels with present arguments by their coerced integer
values and leaving every absent argument's channel untouched; a call carrying
a non-numeric argument (with any earlier arguments coercible) raises
TypeError. -/
theorem set_config_spec (b t l : Option PyVal) (g : Config) :
    ((argCoerces b = true ∧ argCoerces t = true ∧ argCoerces l = true) →
      set_config b t l g =
        ({ base_pin := resolvedChannel b g.base_pin,
           top_pin := resolvedChannel t g.top_pin,
           laser_pin := resolvedChannel l g.laser_pin }, none)) ∧
    ((b = some .other ∨
      (argCoerces b = true ∧ t = some .other) ∨
      (argCoerces b = true ∧ argCoerces t = true ∧ l = some .other)) →
      (set_config b t l g).2 = some .typeError) := by
  constructor
  · rintro ⟨hb, ht, hl⟩
    simp only [set_config, setOne_base b hb, setOne_top t ht, setOne_laser l hl]
  · rintro (rfl | ⟨hb, rfl⟩ | ⟨hb, ht, rfl⟩)
    · rfl
    · simp only [set_config, setOne_base b hb]
      rfl
    · simp only [set_config, setOne_base b hb, setOne_top t ht]
      rfl

/-- Claim C6 witness: overriding only the base channel with 5 rewrites exactly
that channel of the defaults, and a non-numeric top argument raises
TypeError. -/
theorem set_config_spec_witness :
    (set_config (some (.int 5)) none none DEFAULT_CONFIG =
      ({ base_pin := resolvedChannel (some (.int 5)) DEFAULT_CONFIG.base_pin,
         top_pin := resolvedChannel none DEFAULT_CONFIG.top_pin,
         laser_pin := resolvedChannel none DEFAULT_CONFIG.laser_pin }, none)) ∧
    (set_config none (some .other) none DEFAULT_CONFIG).2 = some .typeError :=
  ⟨(set_config_spec (some (.int 5)) none none DEFAULT_CONFIG).1 (by decide),
   (set_config_spec none (some .other) none DEFAULT_CONFIG).2 (by decide)⟩

/-- Claim C7: the configuration store is read exactly once, at construction.
After overriding the base channel to 5, a tower constructed with no explicit
base argument acquires channel 5 (the other channels staying at their stored
values), while a tower constructed from the pre-override store carries the
original base channel. A constructed tower is a value determined entirely by
the store at its construction instant, so later overrides cannot reach it. -/
theorem config_snapshot_spec (g : Config) :
    ((LaserTower.init none none none none
        ((set_config (some (.int 5)) none none g).1)).1.base_pin = 5) ∧
    ((LaserTower.init none none none none
        ((set_config (some (.int 5)) none none g).1)).1.top_pin = g.top_pin) ∧
    ((LaserTower.init none none none none g).1.base_pin = g.base_pin) :=
  ⟨rfl, rfl, rfl⟩

/-- Claim C10: constructing a LaserTower never mutates the process-wide store,
even when explicit per-instance pin arguments are supplied: the store after
any construction is exactly the store before it, so a later construction with
no arguments still resolves exactly the channels left by the last
`set_config`. -/
theorem init_preserves_global (b t l : Option Int) (p : Option PulseSettings)
    (g : Config) :
    (LaserTower.init b t l p g).2 = g ∧
    (LaserTower.init none none none none (LaserTower.init b t l p g).2).1.base_pin
      = g.base_pin ∧
    (LaserTower.init none none none none (LaserTower.init b t l p g).2).1.top_pin
      = g.top_pin ∧
    (LaserTower.init none none none none (LaserTower.init b t l p g).2).1.laser_pin
      = g.laser_pin :=
  ⟨rfl, rfl, rfl, rfl⟩

/-- Claim C4 counterexample: an HTTP 304 response is a non-2xx status with no
transport failure, yet `notify_backend` does not fail on it: `requests`'
`raise_for_status` raises only for 4xx/5xx, so the call succeeds with the text
fallback. -/
theorem notify_backend_non2xx_counterexample :
    notify_backend (α := Unit)
      [.response { status_code := 304, parsedJson := none, text := "Not Modified" }]
      0 0 "cam-1" "hello" =
      some (.ok (.textResult "Not Modified"),
            { camera_id := "cam-1", time := pyIsoformat 0 ++ "Z", message := "hello" },
            []) ∧
    (304 < 200 ∨ 300 ≤ 304) :=
  ⟨rfl, by decide⟩

/-- Claim C4 (amended): for every notify call whose single POST yields a
client-error or server-error HTTP status (4xx/5xx) or a transport failure, the
call fails with one translated "failed to notify backend" RuntimeError whose
cause is the original underlying exception, and exactly one outcome is
consumed from the transport script — one POST attempt, no retry. (Non-2xx
statuses outside 4xx/5xx, such as 304, are instead treated as success.) -/
theorem notify_backend_failure_spec {α : Type} (o : PostOutcome α)
    (rest : List (PostOutcome α)) (utcNow tzOffset : Int)
    (camera_id message : String) (c : NotifyCause)
    (h : originalCause o = some c) :
    ∃ tail, notify_backend (o :: rest) utcNow tzOffset camera_id message =
      some (.error { message := notifyErrMsg tail, cause := c },
            { camera_id := camera_id,
              time := pyIsoformat (utcNow + tzOffset) ++ "Z",
              message := message },
            rest) := by
  rcases o with m | r
  · simp only [originalCause, Option.some.injEq] at h
    subst h
    exact ⟨": " ++ m, rfl⟩
  · simp only [originalCause] at h
    by_cases hc : 400 ≤ r.status_code ∧ r.status_code < 600
    · rw [if_pos hc, Option.some.injEq] at h
      subst h
      refine ⟨": http error", ?_⟩
      simp only [notify_backend, http_post, raise_for_status, if_pos hc]
    · rw [if_neg hc] at h
      cases h

/-- Claim C4 witness: a transport failure ("timeout") on the only scripted
outcome yields the translated error chaining that failure, with the whole
script consumed. -/
theorem notify_backend_failure_spec_witness :
    originalCause (α := Unit) (.transportError "timeout") =
      some (.transport "timeout") ∧
    ∃ tail, notify_backend (α := Unit) [.transportError "timeout"] 0 0 "cam-1" "hello" =
      some (.error { message := notifyErrMsg tail, cause := .transport "timeout" },
            { camera_id := "cam-1",
              time := pyIsoformat (0 + 0) ++ "Z",
              message := "hello" },
            []) :=
  ⟨rfl,
   notify_backend_failure_spec (.transportError "timeout") [] 0 0 "cam-1" "hello"
     (.transport "timeout") rfl⟩

/-- Claim C8: for a delivered response with a 2xx status, `notify_backend`
succeeds: it returns the parsed JSON data when the body parses, and otherwise
returns the raw response text verbatim, never raising on the parse failure. -/
theorem notify_backend_2xx_spec {α : Type} (r : Response α)
    (rest : List (PostOutcome α)) (utcNow tzOffset : Int)
    (camera_id message : String)
    (h : 200 ≤ r.status_code ∧ r.status_code < 300) :
    notify_backend (.response r :: rest) utcNow tzOffset camera_id message =
      some (.ok (match r.parsedJson with
                 | some d => .jsonResult d
                 | none => .textResult r.text),
            { camera_id := camera_id,
              time := pyIsoformat (utcNow + tzOffset) ++ "Z",
              message := message },
            rest) := by
  have hc : ¬ (400 ≤ r.status_code ∧ r.status_code < 600) := by
    rintro ⟨h4, _⟩
    exact absurd (lt_of_lt_of_le h.2 (by omega)) (lt_irrefl _)
  rcases hp : r.parsedJson with _ | d <;>
    simp only [notify_backend, http_post, raise_for_status, if_neg hc, hp]

/-- Claim C8 witness: a 200 response with the non-JSON body "ACK" makes
`notify` return the literal string "ACK". -/
theorem notify_backend_2xx_spec_witness :
    ((200 ≤ 200 ∧ 200 < 300) : Prop) ∧
    notify_backend (α := Unit)
      [.response { status_code := 200, parsedJson := none, text := "ACK" }]
      0 0 "cam-1" "hello" =
      some (.ok (.textResult "ACK"),
            { camera_id := "cam-1",
              time := pyIsoformat (0 + 0) ++ "Z",
              message := "hello" },
            []) :=
  ⟨by decide,
   notify_backend_2xx_spec { status_code := 200, parsedJson := none, text := "ACK" }
     [] 0 0 "cam-1" "hello" (by decide)⟩

/-- Claim C5 divergence: `notify_backend` does build a fresh payload of exactly
the three fields camera_id, time and message, but the time field is the local
wall-clock reading (`datetime.now()`) with a literal "Z" appended, not the
current UTC timestamp: at UTC instant 0 in a process whose local timezone is
UTC+1 (offset 3600 s), the payload's time field renders the instant 3600,
which differs from the rendering of the actual UTC instant 0 that the "Z"
suffix asserts. -/
theorem notify_payload_time_not_utc :
    notify_backend (α := Unit)
      [.response { status_code := 200, parsedJson := none, text := "ok" }]
      0 3600 "cam-1" "hi" =
      some (.ok (.textResult "ok"),
            { camera_id := "cam-1", time := pyIsoformat 3600 ++ "Z", message := "hi" },
            []) ∧
    ((pyIsoformat 3600 ++ "Z") == (pyIsoformat 0 ++ "Z")) = false :=
  ⟨rfl, by decide⟩

end ControlLaserTower
